import Mathlib

/-!
Verification development for the Clockify MCP adapter (src/index.ts).

The adapter is a thin protocol layer: a dispatcher switches on an operation
name, validates the presence of mandatory arguments by JS truthiness, and each
handler reshapes the argument bag into one HTTP request (path, method, JSON
body, optional override base URL) that is executed by a single helper
`makeRequest`.  We embed the argument bags as association lists of
JavaScript-like values, the handlers as pure request builders, and
`makeRequest` as a function of the configuration and of the (oracle) fetch
outcome, returning the number of fetch attempts together with the classified
result.

Modelling notes, stated once here:
* JS objects are association lists with unique keys in insertion order;
  property access returns the first matching value, or `undefined`.
* `new Date(s)` parsing is modelled for the ISO calendar-date form
  `YYYY-MM-DD` (ECMA-262 Date Time String Format, date-only, interpreted as
  UTC midnight) for years 1970-9999; every other string is modelled as an
  invalid date.  `Date.prototype.toISOString` is modelled in full for
  non-negative millisecond timestamps.
* JSON response bodies are parsed by a small recursive-descent parser; JSON
  numbers are restricted to integers in this model (no claim depends on
  fractional response values).  The empty string is not valid JSON.
* A thrown non-`McpError` JavaScript exception (TypeError / RangeError /
  SyntaxError) is carried by the `JsFailure.thrown` and
  `JsFailure.jsonSyntaxError` constructors.
-/

set_option autoImplicit false

namespace Clockify

/-- A JavaScript-like value as it appears in a tool-call argument bag or a
JSON body: string, number (integers in this model), boolean, array, object
(insertion-ordered association list), `undefined`, or `null`. -/
inductive JsValue where
  | str (s : String)
  | num (n : Int)
  | bool (b : Bool)
  | arr (xs : List JsValue)
  | obj (fields : List (String × JsValue))
  | undefined
  | null

/-- An argument bag / JS object body: keys in insertion order. -/
abbrev Args := List (String × JsValue)

/-- Property access `o[k]`: the first value bound to `k`, else `undefined`. -/
def lookupJs (args : Args) (k : String) : JsValue :=
  match args.find? (fun p => p.1 = k) with
  | some p => p.2
  | none => .undefined

/-- First value bound to `k`, as an `Option`. -/
def findVal (args : Args) (k : String) : Option JsValue :=
  (args.find? (fun p => p.1 = k)).map (·.2)

/-- JavaScript truthiness of a value. -/
def jsTruthy : JsValue → Bool
  | .str s => !(s = "")
  | .num n => !(n = 0)
  | .bool b => b
  | .arr _ => true
  | .obj _ => true
  | .undefined => false
  | .null => false

/-- Truthiness of `args?.k` as used by the presence checks of the dispatcher. -/
def truthyArg (args : Args) (k : String) : Bool :=
  jsTruthy (lookupJs args k)

/-- Is the value defined (neither `undefined` nor `null`)?  This is the
filter used by the query-string building loops. -/
def isDefined : JsValue → Bool
  | .undefined => false
  | .null => false
  | _ => true

/-- Is the value the JS `undefined`?  This is the test of the
`Remove undefined properties` loops in the report handlers. -/
def isUndefined : JsValue → Bool
  | .undefined => true
  | _ => false

/-- The conversion `Array.prototype.join` applies to one array element:
`null` and `undefined` render as the empty string, other values by their
string conversion.  (The schemas of the adapter declare only flat arrays of
strings; an array nested inside an array is outside this model.) -/
def jsElemToString : JsValue → String
  | .str s => s
  | .num n => toString n
  | .bool b => if b then "true" else "false"
  | .arr _ => ""
  | .obj _ => "[object Object]"
  | .undefined => ""
  | .null => ""

/-- The JS string coercion `String(value)` (also the semantics of a template
literal placeholder) for the value forms the adapter manipulates.  Arrays
join their elements with commas; plain objects print as
`[object Object]`. -/
def jsToString : JsValue → String
  | .str s => s
  | .num n => toString n
  | .bool b => if b then "true" else "false"
  | .arr xs => String.intercalate "," (xs.map jsElemToString)
  | .obj _ => "[object Object]"
  | .undefined => "undefined"
  | .null => "null"

/-- The object-spread `{...o}` minus one destructured key. -/
def removeKey (args : Args) (k : String) : Args :=
  args.filter (fun p => !(p.1 = k))

/-- The object-spread minus several destructured keys. -/
def removeKeys (args : Args) (ks : List String) : Args :=
  args.filter (fun p => !(ks.contains p.1))

/-- Property assignment `o[k] = v`: replaces the first binding of `k` in
place (preserving insertion order), or appends the binding when absent. -/
def updateKey (args : Args) (k : String) (v : JsValue) : Args :=
  match args with
  | [] => [(k, v)]
  | (k', v') :: rest =>
      if k' = k then (k', v) :: rest else (k', v') :: updateKey rest k v

/-- Hexadecimal digit (uppercase), for percent-encoding. -/
def hexDigit (n : Nat) : Char :=
  if n < 10 then Char.ofNat (48 + n) else Char.ofNat (65 + (n - 10))

/-- UTF-8 code units of a Unicode code point, as numbers. -/
def utf8Bytes (n : Nat) : List Nat :=
  if n < 0x80 then [n]
  else if n < 0x800 then [0xC0 + n / 0x40, 0x80 + n % 0x40]
  else if n < 0x10000 then
    [0xE0 + n / 0x1000, 0x80 + n / 0x40 % 0x40, 0x80 + n % 0x40]
  else
    [0xF0 + n / 0x40000, 0x80 + n / 0x1000 % 0x40,
     0x80 + n / 0x40 % 0x40, 0x80 + n % 0x40]

/-- Is this byte kept verbatim by the `application/x-www-form-urlencoded`
serializer?  (ASCII alphanumerics and `*`, `-`, `.`, `_`.) -/
def formUnreserved (b : Nat) : Bool :=
  (48 ≤ b && b ≤ 57) || (65 ≤ b && b ≤ 90) || (97 ≤ b && b ≤ 122) ||
  b = 42 || b = 45 || b = 46 || b = 95

/-- Percent-encode one byte (space becomes `+`). -/
def formEncodeByte (b : Nat) : String :=
  if formUnreserved b then String.singleton (Char.ofNat b)
  else if b = 32 then "+"
  else "%" ++ String.singleton (hexDigit (b / 16)) ++ String.singleton (hexDigit (b % 16))

/-- The `application/x-www-form-urlencoded` escaping applied by
`URLSearchParams.toString()` to each name and value. -/
def formEncode (s : String) : String :=
  String.join ((s.data.flatMap (fun c => utf8Bytes c.toNat)).map formEncodeByte)

/-- The pair list accumulated by `new URLSearchParams()` after the
`Object.entries(params).forEach` loop: every defined (non-null,
non-undefined) entry is appended, in insertion order, with the value coerced
by `String(value)`. -/
def searchParamsOf (params : Args) : List (String × String) :=
  params.foldl
    (fun acc p => if isDefined p.2 then acc ++ [(p.1, jsToString p.2)] else acc) []

/-- Serialization `URLSearchParams.toString()`: the pairs joined by `&` as
`name=value`, each side form-urlencoded. -/
def searchToString : List (String × String) → String
  | [] => ""
  | [(k, v)] => formEncode k ++ "=" ++ formEncode v
  | (k, v) :: rest => formEncode k ++ "=" ++ formEncode v ++ "&" ++ searchToString rest

/-- Append the query string to the endpoint exactly as the handlers do:
only when `toString()` is truthy (a non-empty string). -/
def withQuery (endpoint : String) (params : Args) : String :=
  let qs := searchToString (searchParamsOf params)
  if qs = "" then endpoint else endpoint ++ "?" ++ qs

/-! ### Date model -/

/-- Gregorian leap year. -/
def isLeapYear (y : Nat) : Bool :=
  (y % 4 = 0 && y % 100 ≠ 0) || y % 400 = 0

/-- Days in a month (1-12) of a year. -/
def daysInMonth (y m : Nat) : Nat :=
  if m = 2 then (if isLeapYear y then 29 else 28)
  else if m = 4 || m = 6 || m = 9 || m = 11 then 30
  else 31

/-- Days from 1970-01-01 to the given civil date (valid for dates from
1970-01-01 onward). -/
def daysFromCivil (y m d : Nat) : Nat :=
  let y' := if m ≤ 2 then y - 1 else y
  let era := y' / 400
  let yoe := y' % 400
  let mp := if m > 2 then m - 3 else m + 9
  let doy := (153 * mp + 2) / 5 + (d - 1)
  let doe := yoe * 365 + yoe / 4 - yoe / 100 + doy
  era * 146097 + doe - 719468

/-- Civil date (year, month, day) from a day count since 1970-01-01
(non-negative). -/
def civilFromDays (z : Nat) : Nat × Nat × Nat :=
  let z' := z + 719468
  let era := z' / 146097
  let doe := z' % 146097
  let yoe := (doe - doe / 1460 + doe / 36524 - doe / 146096) / 365
  let y := yoe + era * 400
  let doy := doe - (365 * yoe + yoe / 4 - yoe / 100)
  let mp := (5 * doy + 2) / 153
  let d := doy - (153 * mp + 2) / 5 + 1
  let m := if mp < 10 then mp + 3 else mp - 9
  (if m ≤ 2 then y + 1 else y, m, d)

/-- Left-pad a numeral with zeros to the given width. -/
def padNum (width n : Nat) : String :=
  let s := toString n
  String.mk (List.replicate (width - s.length) '0') ++ s

/-- Model of `Date.prototype.toISOString` for a non-negative millisecond
timestamp: `YYYY-MM-DDTHH:MM:SS.mmmZ`. -/
def toISOString (ms : Nat) : String :=
  let days := ms / 86400000
  let rem := ms % 86400000
  let ymd := civilFromDays days
  padNum 4 ymd.1 ++ "-" ++ padNum 2 ymd.2.1 ++ "-" ++ padNum 2 ymd.2.2 ++
    "T" ++ padNum 2 (rem / 3600000) ++ ":" ++ padNum 2 (rem / 60000 % 60) ++
    ":" ++ padNum 2 (rem / 1000 % 60) ++ "." ++ padNum 3 (rem % 1000) ++ "Z"

/-- Decimal digit character to its value, if any. -/
def digitVal (c : Char) : Option Nat :=
  if '0' ≤ c && c ≤ '9' then some (c.toNat - 48) else none

/-- Read a fixed-width decimal number from characters. -/
def readDigits : List Char → Option Nat
  | [] => some 0
  | c :: cs =>
      match digitVal c, readDigits cs with
      | some _, some _ =>
          (cs.foldl (fun acc? c =>
              acc?.bind (fun acc => (digitVal c).map (fun d => acc * 10 + d)))
            (digitVal c))
      | _, _ => none

/-- Model of `new Date(s).getTime()` for the date normalization of the adapter:
the ECMA-262 date-only form `YYYY-MM-DD` (UTC midnight), for years
1970-9999 and calendar-valid month/day; every other string is modelled as
an invalid date (`none`). -/
def parseDateOnly (s : String) : Option Nat :=
  match s.data with
  | [y1, y2, y3, y4, '-', m1, m2, '-', d1, d2] =>
      match readDigits [y1, y2, y3, y4], readDigits [m1, m2], readDigits [d1, d2] with
      | some y, some m, some d =>
          if 1970 ≤ y && 1 ≤ m && m ≤ 12 && 1 ≤ d && d ≤ daysInMonth y m then
            some (daysFromCivil y m d * 86400000)
          else none
      | _, _, _ => none
  | _ => none

/-- The embedding of `value.includes("T")` for strings. -/
def hasT (s : String) : Bool :=
  s.data.any (fun c => c = 'T')

/-! ### The HTTP client primitive -/

/-- Process-wide configuration read at startup. -/
structure ClockifyConfig where
  apiKey : String
  baseUrl : String

/-- HTTP method of a request. -/
inductive Method where
  | get | post | put | delete | patch
deriving DecidableEq

/-- One outbound request as assembled by a handler: relative path, method,
optional JSON body, optional override base URL. -/
structure HttpRequest where
  endpoint : String
  method : Method
  body : Option JsValue := none
  baseUrl : Option String := none

/-- The three MCP error codes the adapter raises. -/
inductive McpErrorCode where
  | invalidParams | methodNotFound | internalError
deriving DecidableEq

/-- A failure leaving a handler or the client primitive: a structured
`McpError`, a thrown plain JS exception (wrapped later by the dispatcher), or
the `SyntaxError` escaping `response.json()` (which is returned without
`await` and therefore bypasses the catch block of the helper). -/
inductive JsFailure where
  | mcpError (code : McpErrorCode) (message : String)
  | thrown (message : String)
  | jsonSyntaxError

/-- An HTTP response delivered by the transport. -/
structure HttpResponse where
  status : Nat
  bodyText : String

/-! #### A small JSON parser (for `response.json()`) -/

/-- Skip JSON whitespace. -/
def skipWs : List Char → List Char
  | c :: cs => if c = ' ' || c = '\t' || c = '\n' || c = '\r' then skipWs cs else c :: cs
  | [] => []

/-- Parse the character content of a JSON string after the opening quote. -/
def parseStringChars (fuel : Nat) (cs : List Char) : Option (String × List Char) :=
  match fuel with
  | 0 => none
  | fuel + 1 =>
      match cs with
      | [] => none
      | '"' :: rest => some ("", rest)
      | '\\' :: e :: rest =>
          let esc? : Option Char :=
            if e = '"' then some '"'
            else if e = '\\' then some '\\'
            else if e = '/' then some '/'
            else if e = 'n' then some '\n'
            else if e = 't' then some '\t'
            else if e = 'r' then some '\r'
            else none
          match esc? with
          | some c =>
              (parseStringChars fuel rest).map
                (fun r => (String.singleton c ++ r.1, r.2))
          | none => none
      | c :: rest =>
          if c = '\\' then none
          else (parseStringChars fuel rest).map
            (fun r => (String.singleton c ++ r.1, r.2))

/-- Parse a run of decimal digits into a number. -/
def parseDigits (fuel : Nat) (acc : Nat) (cs : List Char) : Option (Nat × List Char) :=
  match fuel with
  | 0 => none
  | fuel + 1 =>
      match cs with
      | c :: rest =>
          match digitVal c with
          | some d =>
              match parseDigits fuel (acc * 10 + d) rest with
              | some r => some r
              | none => some (acc * 10 + d, rest)
          | none => some (acc, cs)
      | [] => some (acc, [])

mutual

/-- Recursive-descent JSON value parser (fueled; integers only). -/
def parseVal (fuel : Nat) (cs : List Char) : Option (JsValue × List Char) :=
  match fuel with
  | 0 => none
  | fuel + 1 =>
      match skipWs cs with
      | 'n' :: 'u' :: 'l' :: 'l' :: rest => some (.null, rest)
      | 't' :: 'r' :: 'u' :: 'e' :: rest => some (.bool true, rest)
      | 'f' :: 'a' :: 'l' :: 's' :: 'e' :: rest => some (.bool false, rest)
      | '"' :: rest =>
          (parseStringChars fuel rest).map (fun r => (.str r.1, r.2))
      | '-' :: c :: rest =>
          match digitVal c with
          | some d =>
              (parseDigits fuel d rest).map (fun r => (.num (-(r.1 : Int)), r.2))
          | none => none
      | '[' :: rest =>
          (match skipWs rest with
           | ']' :: rest' => some (.arr [], rest')
           | _ => (parseElems fuel rest).map (fun r => (.arr r.1, r.2)))
      | '{' :: rest =>
          (match skipWs rest with
           | '}' :: rest' => some (.obj [], rest')
           | _ => (parseMembers fuel rest).map (fun r => (.obj r.1, r.2)))
      | c :: rest =>
          match digitVal c with
          | some d =>
              (parseDigits fuel d rest).map (fun r => (.num (r.1 : Int), r.2))
          | none => none
      | [] => none

/-- Parse the comma-separated elements of a JSON array, up to the closing
bracket. -/
def parseElems (fuel : Nat) (cs : List Char) : Option (List JsValue × List Char) :=
  match fuel with
  | 0 => none
  | fuel + 1 =>
      match parseVal fuel cs with
      | none => none
      | some (v, rest) =>
          match skipWs rest with
          | ',' :: rest' =>
              (parseElems fuel rest').map (fun r => (v :: r.1, r.2))
          | ']' :: rest' => some ([v], rest')
          | _ => none

/-- Parse the comma-separated members of a JSON object, up to the closing
brace. -/
def parseMembers (fuel : Nat) (cs : List Char) : Option (List (String × JsValue) × List Char) :=
  match fuel with
  | 0 => none
  | fuel + 1 =>
      match skipWs cs with
      | '"' :: rest =>
          match parseStringChars fuel rest with
          | none => none
          | some (k, rest₁) =>
              match skipWs rest₁ with
              | ':' :: rest₂ =>
                  match parseVal fuel rest₂ with
                  | none => none
                  | some (v, rest₃) =>
                      match skipWs rest₃ with
                      | ',' :: rest₄ =>
                          (parseMembers fuel rest₄).map (fun r => ((k, v) :: r.1, r.2))
                      | '}' :: rest₄ => some ([(k, v)], rest₄)
                      | _ => none
              | _ => none
      | _ => none

end

/-- Model of `response.json()`: parse the whole body text as one JSON value,
failing (a `SyntaxError`) on the empty string or any malformed body. -/
def parseJson (s : String) : Option JsValue :=
  match parseVal (s.length + 1) s.data with
  | some (v, rest) => if skipWs rest = [] then some v else none
  | none => none

/-- The HTTP client primitive `makeRequest`, over an explicit fetch outcome
(`Except.error m` models a transport-level rejection with message `m`).
Returns the number of fetch attempts together with the classified result:

* no API key configured: fails immediately with an invalid-params
  `McpError`, zero fetch attempts;
* transport failure: wrapped as an internal `McpError`;
* non-success status (`response.ok` is `200 <= status <= 299`): an internal
  `McpError` carrying the status code and the raw body text;
* success status: the parsed JSON body; an unparseable (e.g. empty) body is
  a `SyntaxError` escaping unwrapped, because `response.json()` is returned
  without `await` and so bypasses the surrounding catch. -/
def makeRequest (config : ClockifyConfig) (_req : HttpRequest)
    (fetchResult : Except String HttpResponse) : Nat × Except JsFailure JsValue :=
  if config.apiKey = "" then
    (0, .error (.mcpError .invalidParams
      "Clockify API key not configured. Set CLOCKIFY_API_KEY environment variable."))
  else
    match fetchResult with
    | .error m => (1, .error (.mcpError .internalError ("Request failed: " ++ m)))
    | .ok resp =>
        if 200 ≤ resp.status ∧ resp.status ≤ 299 then
          match parseJson resp.bodyText with
          | some v => (1, .ok v)
          | none => (1, .error .jsonSyntaxError)
        else
          (1, .error (.mcpError .internalError
            ("Clockify API error (" ++ toString resp.status ++ "): " ++ resp.bodyText)))

/-- The full URL the primitive fetches: the override base URL when provided
and truthy, else the configured base, followed by the endpoint. -/
def makeRequestUrl (config : ClockifyConfig) (req : HttpRequest) : String :=
  (match req.baseUrl with
   | some b => if b = "" then config.baseUrl else b
   | none => config.baseUrl) ++ req.endpoint

/-! ### Handlers

Each handler is embedded as the construction of the single `makeRequest`
call it performs: the path, method, body and base URL of the request, computed
from the argument bag exactly as the source does.  Handlers that can throw
before reaching the network (the time-entry date normalization) return an
`Except`. -/

/-- Date normalization applied unconditionally to a field (the `start` of
`create_time_entry`): a string already containing `"T"` is left in place;
otherwise the field is reassigned `new Date(value).toISOString()`, which
throws a RangeError on an unparseable date.  A missing or non-string value
makes the `value.includes("T")` call itself throw. -/
def normalizeAlways (data : Args) (k : String) : Except JsFailure Args :=
  match lookupJs data k with
  | .str s =>
      if hasT s then .ok data
      else
        match parseDateOnly s with
        | some ms => .ok (updateKey data k (.str (toISOString ms)))
        | none => .error (.thrown "Invalid time value")
  | .undefined => .error (.thrown "Cannot read properties of undefined reading includes")
  | _ => .error (.thrown "value.includes is not a function")

/-- Date normalization guarded by truthiness (the `end` of
`create_time_entry` and the `start`/`end` of `update_time_entry`): a falsy
value (absent, empty string, ...) is left untouched. -/
def normalizeIfTruthy (data : Args) (k : String) : Except JsFailure Args :=
  let v := lookupJs data k
  if jsTruthy v then
    match v with
    | .str s =>
        if hasT s then .ok data
        else
          match parseDateOnly s with
          | some ms => .ok (updateKey data k (.str (toISOString ms)))
          | none => .error (.thrown "Invalid time value")
    | _ => .error (.thrown "value.includes is not a function")
  else .ok data

/-- Handler `getCurrentUser`: one read of `/user`. -/
def getCurrentUser : HttpRequest :=
  { endpoint := "/user", method := .get }

/-- Handler `getWorkspaces`: one read of `/workspaces`. -/
def getWorkspaces : HttpRequest :=
  { endpoint := "/workspaces", method := .get }

/-- Handler `getWorkspaceUsers`. -/
def getWorkspaceUsers (workspaceId : JsValue) : HttpRequest :=
  { endpoint := "/workspaces/" ++ jsToString workspaceId ++ "/users", method := .get }

/-- Handler `createTimeEntry`: strips `workspaceId`, normalizes `start`
(unconditionally) and `end` (when truthy), and posts the remainder. -/
def createTimeEntry (args : Args) : Except JsFailure HttpRequest :=
  let w := lookupJs args "workspaceId"
  let data := removeKey args "workspaceId"
  match normalizeAlways data "start" with
  | .error e => .error e
  | .ok data₁ =>
      match normalizeIfTruthy data₁ "end" with
      | .error e => .error e
      | .ok data₂ =>
          .ok { endpoint := "/workspaces/" ++ jsToString w ++ "/time-entries",
                method := .post, body := some (.obj data₂) }

/-- Handler `getTimeEntries`: per-user path when `userId` is truthy, the
remaining defined arguments as query parameters. -/
def getTimeEntries (args : Args) : HttpRequest :=
  let w := lookupJs args "workspaceId"
  let u := lookupJs args "userId"
  let params := removeKeys args ["workspaceId", "userId"]
  let endpoint :=
    if jsTruthy u then
      "/workspaces/" ++ jsToString w ++ "/user/" ++ jsToString u ++ "/time-entries"
    else
      "/workspaces/" ++ jsToString w ++ "/time-entries"
  { endpoint := withQuery endpoint params, method := .get }

/-- Handler `updateTimeEntry`: strips the path identifiers, normalizes
`start` and `end` when truthy, and puts the remainder. -/
def updateTimeEntry (args : Args) : Except JsFailure HttpRequest :=
  let w := lookupJs args "workspaceId"
  let tid := lookupJs args "timeEntryId"
  let data := removeKeys args ["workspaceId", "timeEntryId"]
  match normalizeIfTruthy data "start" with
  | .error e => .error e
  | .ok data₁ =>
      match normalizeIfTruthy data₁ "end" with
      | .error e => .error e
      | .ok data₂ =>
          .ok { endpoint := "/workspaces/" ++ jsToString w ++ "/time-entries/" ++ jsToString tid,
                method := .put, body := some (.obj data₂) }

/-- Handler `deleteTimeEntry`. -/
def deleteTimeEntry (workspaceId timeEntryId : JsValue) : HttpRequest :=
  { endpoint := "/workspaces/" ++ jsToString workspaceId ++ "/time-entries/" ++ jsToString timeEntryId,
    method := .delete }

/-- Handler `stopTimeEntry`: a PATCH of the per-user running-entry endpoint
with only an `end` field, `end || new Date().toISOString()`; `now` is the
current instant. -/
def stopTimeEntry (args : Args) (now : String) : HttpRequest :=
  let w := lookupJs args "workspaceId"
  let u := lookupJs args "userId"
  let e := lookupJs args "end"
  let endTime := if jsTruthy e then e else .str now
  { endpoint := "/workspaces/" ++ jsToString w ++ "/user/" ++ jsToString u ++ "/time-entries",
    method := .patch, body := some (.obj [("end", endTime)]) }

/-- Handler `createProject`. -/
def createProject (args : Args) : HttpRequest :=
  let w := lookupJs args "workspaceId"
  { endpoint := "/workspaces/" ++ jsToString w ++ "/projects",
    method := .post, body := some (.obj (removeKey args "workspaceId")) }

/-- Handler `getProjects`: `workspaceId` as path segment, every remaining
defined argument as a query parameter in insertion order. -/
def getProjects (args : Args) : HttpRequest :=
  let w := lookupJs args "workspaceId"
  let params := removeKey args "workspaceId"
  { endpoint := withQuery ("/workspaces/" ++ jsToString w ++ "/projects") params,
    method := .get }

/-- Handler `getProject`. -/
def getProject (workspaceId projectId : JsValue) : HttpRequest :=
  { endpoint := "/workspaces/" ++ jsToString workspaceId ++ "/projects/" ++ jsToString projectId,
    method := .get }

/-- Handler `updateProject`. -/
def updateProject (args : Args) : HttpRequest :=
  let w := lookupJs args "workspaceId"
  let p := lookupJs args "projectId"
  { endpoint := "/workspaces/" ++ jsToString w ++ "/projects/" ++ jsToString p,
    method := .put, body := some (.obj (removeKeys args ["workspaceId", "projectId"])) }

/-- Handler `deleteProject`. -/
def deleteProject (workspaceId projectId : JsValue) : HttpRequest :=
  { endpoint := "/workspaces/" ++ jsToString workspaceId ++ "/projects/" ++ jsToString projectId,
    method := .delete }

/-- Handler `createTask`. -/
def createTask (args : Args) : HttpRequest :=
  let w := lookupJs args "workspaceId"
  let p := lookupJs args "projectId"
  { endpoint := "/workspaces/" ++ jsToString w ++ "/projects/" ++ jsToString p ++ "/tasks",
    method := .post, body := some (.obj (removeKeys args ["workspaceId", "projectId"])) }

/-- Handler `getTasks`. -/
def getTasks (args : Args) : HttpRequest :=
  let w := lookupJs args "workspaceId"
  let p := lookupJs args "projectId"
  let params := removeKeys args ["workspaceId", "projectId"]
  { endpoint := withQuery ("/workspaces/" ++ jsToString w ++ "/projects/" ++ jsToString p ++ "/tasks") params,
    method := .get }

/-- Handler `getTask`. -/
def getTask (workspaceId projectId taskId : JsValue) : HttpRequest :=
  { endpoint := "/workspaces/" ++ jsToString workspaceId ++ "/projects/" ++
      jsToString projectId ++ "/tasks/" ++ jsToString taskId,
    method := .get }

/-- Handler `updateTask`. -/
def updateTask (args : Args) : HttpRequest :=
  let w := lookupJs args "workspaceId"
  let p := lookupJs args "projectId"
  let t := lookupJs args "taskId"
  { endpoint := "/workspaces/" ++ jsToString w ++ "/projects/" ++ jsToString p ++
      "/tasks/" ++ jsToString t,
    method := .put, body := some (.obj (removeKeys args ["workspaceId", "projectId", "taskId"])) }

/-- Handler `deleteTask`. -/
def deleteTask (workspaceId projectId taskId : JsValue) : HttpRequest :=
  { endpoint := "/workspaces/" ++ jsToString workspaceId ++ "/projects/" ++
      jsToString projectId ++ "/tasks/" ++ jsToString taskId,
    method := .delete }

/-- Handler `createClient`. -/
def createClient (args : Args) : HttpRequest :=
  let w := lookupJs args "workspaceId"
  { endpoint := "/workspaces/" ++ jsToString w ++ "/clients",
    method := .post, body := some (.obj (removeKey args "workspaceId")) }

/-- Handler `getClients`. -/
def getClients (args : Args) : HttpRequest :=
  let w := lookupJs args "workspaceId"
  { endpoint := withQuery ("/workspaces/" ++ jsToString w ++ "/clients") (removeKey args "workspaceId"),
    method := .get }

/-- Handler `updateClient`. -/
def updateClient (args : Args) : HttpRequest :=
  let w := lookupJs args "workspaceId"
  let c := lookupJs args "clientId"
  { endpoint := "/workspaces/" ++ jsToString w ++ "/clients/" ++ jsToString c,
    method := .put, body := some (.obj (removeKeys args ["workspaceId", "clientId"])) }

/-- Handler `deleteClient`. -/
def deleteClient (workspaceId clientId : JsValue) : HttpRequest :=
  { endpoint := "/workspaces/" ++ jsToString workspaceId ++ "/clients/" ++ jsToString clientId,
    method := .delete }

/-- Handler `createTag`. -/
def createTag (args : Args) : HttpRequest :=
  let w := lookupJs args "workspaceId"
  { endpoint := "/workspaces/" ++ jsToString w ++ "/tags",
    method := .post, body := some (.obj (removeKey args "workspaceId")) }

/-- Handler `getTags`. -/
def getTags (args : Args) : HttpRequest :=
  let w := lookupJs args "workspaceId"
  { endpoint := withQuery ("/workspaces/" ++ jsToString w ++ "/tags") (removeKey args "workspaceId"),
    method := .get }

/-- Handler `updateTag`. -/
def updateTag (args : Args) : HttpRequest :=
  let w := lookupJs args "workspaceId"
  let t := lookupJs args "tagId"
  { endpoint := "/workspaces/" ++ jsToString w ++ "/tags/" ++ jsToString t,
    method := .put, body := some (.obj (removeKeys args ["workspaceId", "tagId"])) }

/-- Handler `deleteTag`. -/
def deleteTag (workspaceId tagId : JsValue) : HttpRequest :=
  { endpoint := "/workspaces/" ++ jsToString workspaceId ++ "/tags/" ++ jsToString tagId,
    method := .delete }

/-! ### Report handlers -/

/-- The arguments of `get_detailed_report`, typed per the declared
schema; an absent field is the JS `undefined`. -/
structure DetailedReportArgs where
  dateRangeStart : Option String := none
  dateRangeEnd : Option String := none
  users : Option (List String) := none
  clients : Option (List String) := none
  projects : Option (List String) := none
  tasks : Option (List String) := none
  tags : Option (List String) := none
  billable : Option Bool := none
  description : Option String := none
  withoutDescription : Option Bool := none
  customFieldIds : Option (List String) := none
  sortColumn : Option String := none
  sortOrder : Option String := none
  page : Option Int := none
  pageSize : Option Int := none
  exportType : Option String := none

/-- The arguments of `get_summary_report`, typed per the declared
schema. -/
structure SummaryReportArgs where
  dateRangeStart : Option String := none
  dateRangeEnd : Option String := none
  users : Option (List String) := none
  clients : Option (List String) := none
  projects : Option (List String) := none
  tasks : Option (List String) := none
  tags : Option (List String) := none
  billable : Option Bool := none
  groups : Option (List String) := none
  sortColumn : Option String := none
  sortOrder : Option String := none
  exportType : Option String := none

/-- The JS defaulting idiom `value || dft` for a string-or-undefined field
(the empty string is falsy). -/
def jsOrStr (v : Option String) (dft : String) : String :=
  match v with
  | some s => if s = "" then dft else s
  | none => dft

/-- The JS defaulting idiom `value || dft` for a number-or-undefined field
(zero is falsy). -/
def jsOrNum (v : Option Int) (dft : Int) : Int :=
  match v with
  | some n => if n = 0 then dft else n
  | none => dft

/-- The JS defaulting idiom `value || dft` for an array-or-undefined field
(every array, including the empty one, is truthy). -/
def jsOrList (v : Option (List String)) (dft : List String) : List String :=
  match v with
  | some xs => xs
  | none => dft

/-- An optional string field of a payload (`undefined` when absent). -/
def optStr : Option String → JsValue
  | some s => .str s
  | none => .undefined

/-- An optional boolean field of a payload. -/
def optBool : Option Bool → JsValue
  | some b => .bool b
  | none => .undefined

/-- An optional string-array field of a payload. -/
def optStrArr : Option (List String) → JsValue
  | some xs => .arr (xs.map .str)
  | none => .undefined

/-- The report handlers' `value ? brace-ids-brace : undefined` wrapping of a
list-valued filter. -/
def optIds : Option (List String) → JsValue
  | some xs => .obj [("ids", .arr (xs.map .str))]
  | none => .undefined

/-- Read a string-typed field from a raw bag (off-schema values are treated
as absent in this model). -/
def asStr : JsValue → Option String
  | .str s => some s
  | _ => none

/-- Read a number-typed field from a raw bag. -/
def asInt : JsValue → Option Int
  | .num n => some n
  | _ => none

/-- Read a boolean-typed field from a raw bag. -/
def asBool : JsValue → Option Bool
  | .bool b => some b
  | _ => none

/-- Read a string-array field from a raw bag. -/
def asStrList : JsValue → Option (List String)
  | .arr xs =>
      xs.foldr
        (fun x acc =>
          match x, acc with
          | .str s, some l => some (s :: l)
          | _, _ => none)
        (some [])
  | _ => none

/-- View a raw bag (with `workspaceId` already stripped) through the
detailed-report schema. -/
def readDetailedArgs (bag : Args) : DetailedReportArgs :=
  { dateRangeStart := asStr (lookupJs bag "dateRangeStart")
    dateRangeEnd := asStr (lookupJs bag "dateRangeEnd")
    users := asStrList (lookupJs bag "users")
    clients := asStrList (lookupJs bag "clients")
    projects := asStrList (lookupJs bag "projects")
    tasks := asStrList (lookupJs bag "tasks")
    tags := asStrList (lookupJs bag "tags")
    billable := asBool (lookupJs bag "billable")
    description := asStr (lookupJs bag "description")
    withoutDescription := asBool (lookupJs bag "withoutDescription")
    customFieldIds := asStrList (lookupJs bag "customFieldIds")
    sortColumn := asStr (lookupJs bag "sortColumn")
    sortOrder := asStr (lookupJs bag "sortOrder")
    page := asInt (lookupJs bag "page")
    pageSize := asInt (lookupJs bag "pageSize")
    exportType := asStr (lookupJs bag "exportType") }

/-- View a raw bag (with `workspaceId` already stripped) through the
summary-report schema. -/
def readSummaryArgs (bag : Args) : SummaryReportArgs :=
  { dateRangeStart := asStr (lookupJs bag "dateRangeStart")
    dateRangeEnd := asStr (lookupJs bag "dateRangeEnd")
    users := asStrList (lookupJs bag "users")
    clients := asStrList (lookupJs bag "clients")
    projects := asStrList (lookupJs bag "projects")
    tasks := asStrList (lookupJs bag "tasks")
    tags := asStrList (lookupJs bag "tags")
    billable := asBool (lookupJs bag "billable")
    groups := asStrList (lookupJs bag "groups")
    sortColumn := asStr (lookupJs bag "sortColumn")
    sortOrder := asStr (lookupJs bag "sortOrder")
    exportType := asStr (lookupJs bag "exportType") }

/-- The `detailedFilter` sub-object: sort and paging fields (defaulted by
`||`, the page size clamped by `Math.min(_, 1000)`) and the fixed
`options.totals = CALCULATE`. -/
def detailedFilterVal (r : DetailedReportArgs) : JsValue :=
  .obj [("sortColumn", .str (jsOrStr r.sortColumn "DATE")),
        ("sortOrder", .str (jsOrStr r.sortOrder "DESCENDING")),
        ("page", .num (jsOrNum r.page 1)),
        ("pageSize", .num (min (jsOrNum r.pageSize 50) 1000)),
        ("options", .obj [("totals", .str "CALCULATE")])]

/-- The detailed-report payload before the `Remove undefined properties`
loop, key for key as the object literal in the source. -/
def detailedPayloadRaw (r : DetailedReportArgs) : Args :=
  [("dateRangeStart", optStr r.dateRangeStart),
   ("dateRangeEnd", optStr r.dateRangeEnd),
   ("detailedFilter", detailedFilterVal r),
   ("users", optIds r.users),
   ("clients", optIds r.clients),
   ("projects", optIds r.projects),
   ("tasks", optIds r.tasks),
   ("tags", optIds r.tags),
   ("billable", optBool r.billable),
   ("description", optStr r.description),
   ("withoutDescription", optBool r.withoutDescription),
   ("customFieldIds", optStrArr r.customFieldIds),
   ("exportType", .str (jsOrStr r.exportType "JSON"))]

/-- The `Remove undefined properties` loop: delete every top-level key bound
to `undefined`. -/
def stripUndefined (l : Args) : Args :=
  l.filter (fun p => !(isUndefined p.2))

/-- The detailed-report payload as sent. -/
def detailedReportPayload (r : DetailedReportArgs) : Args :=
  stripUndefined (detailedPayloadRaw r)

/-- The request of `getDetailedReport` for a workspace path segment and
typed arguments: a POST against the report-service base URL. -/
def detailedReportRequest (workspaceId : JsValue) (r : DetailedReportArgs) : HttpRequest :=
  { endpoint := "/workspaces/" ++ jsToString workspaceId ++ "/reports/detailed",
    method := .post, body := some (.obj (detailedReportPayload r)),
    baseUrl := some "https://reports.api.clockify.me/v1" }

/-- Handler `getDetailedReport` over the raw bag. -/
def getDetailedReport (args : Args) : HttpRequest :=
  detailedReportRequest (lookupJs args "workspaceId")
    (readDetailedArgs (removeKey args "workspaceId"))

/-- The `summaryFilter` sub-object: the group-by list defaulted to
`PROJECT` and the defaulted sort fields. -/
def summaryFilterVal (r : SummaryReportArgs) : JsValue :=
  .obj [("groups", .arr ((jsOrList r.groups ["PROJECT"]).map .str)),
        ("sortColumn", .str (jsOrStr r.sortColumn "DURATION")),
        ("sortOrder", .str (jsOrStr r.sortOrder "DESCENDING"))]

/-- The summary-report payload before the `Remove undefined properties`
loop. -/
def summaryPayloadRaw (r : SummaryReportArgs) : Args :=
  [("dateRangeStart", optStr r.dateRangeStart),
   ("dateRangeEnd", optStr r.dateRangeEnd),
   ("summaryFilter", summaryFilterVal r),
   ("users", optIds r.users),
   ("clients", optIds r.clients),
   ("projects", optIds r.projects),
   ("tasks", optIds r.tasks),
   ("tags", optIds r.tags),
   ("billable", optBool r.billable),
   ("exportType", .str (jsOrStr r.exportType "JSON"))]

/-- The summary-report payload as sent. -/
def summaryReportPayload (r : SummaryReportArgs) : Args :=
  stripUndefined (summaryPayloadRaw r)

/-- The request of `getSummaryReport` for a workspace path segment and typed
arguments. -/
def summaryReportRequest (workspaceId : JsValue) (r : SummaryReportArgs) : HttpRequest :=
  { endpoint := "/workspaces/" ++ jsToString workspaceId ++ "/reports/summary",
    method := .post, body := some (.obj (summaryReportPayload r)),
    baseUrl := some "https://reports.api.clockify.me/v1" }

/-- Handler `getSummaryReport` over the raw bag. -/
def getSummaryReport (args : Args) : HttpRequest :=
  summaryReportRequest (lookupJs args "workspaceId")
    (readSummaryArgs (removeKey args "workspaceId"))

/-! ### Dispatcher -/

/-- The operation catalogue's names, in declaration order. -/
def toolNames : List String :=
  ["get_current_user", "get_workspaces", "get_workspace_users",
   "create_time_entry", "get_time_entries", "update_time_entry",
   "delete_time_entry", "stop_time_entry",
   "create_project", "get_projects", "get_project", "update_project",
   "delete_project",
   "create_task", "get_tasks", "get_task", "update_task", "delete_task",
   "create_client", "get_clients", "update_client", "delete_client",
   "create_tag", "get_tags", "update_tag", "delete_tag",
   "get_detailed_report", "get_summary_report"]

/-- The `CallToolRequestSchema` switch up to the single `makeRequest`
call: presence checks by JS truthiness exactly as written per case,
then the handler's request construction.  An unknown name falls to the
default case's method-not-found error.  (The two report cases perform no
presence check, mirroring the source.) -/
def buildRequestCore (now : String) (name : String) (args : Args) :
    Except JsFailure HttpRequest :=
  if name = "get_current_user" then .ok getCurrentUser
  else if name = "get_workspaces" then .ok getWorkspaces
  else if name = "get_workspace_users" then
    if !truthyArg args "workspaceId" then
      .error (.mcpError .invalidParams "workspaceId is required")
    else .ok (getWorkspaceUsers (lookupJs args "workspaceId"))
  else if name = "create_time_entry" then
    if !truthyArg args "workspaceId" then
      .error (.mcpError .invalidParams "workspaceId is required")
    else createTimeEntry args
  else if name = "get_time_entries" then
    if !truthyArg args "workspaceId" then
      .error (.mcpError .invalidParams "workspaceId is required")
    else .ok (getTimeEntries args)
  else if name = "update_time_entry" then
    if !truthyArg args "workspaceId" || !truthyArg args "timeEntryId" then
      .error (.mcpError .invalidParams "workspaceId and timeEntryId are required")
    else updateTimeEntry args
  else if name = "delete_time_entry" then
    if !truthyArg args "workspaceId" || !truthyArg args "timeEntryId" then
      .error (.mcpError .invalidParams "workspaceId and timeEntryId are required")
    else .ok (deleteTimeEntry (lookupJs args "workspaceId") (lookupJs args "timeEntryId"))
  else if name = "stop_time_entry" then
    if !truthyArg args "workspaceId" || !truthyArg args "userId" then
      .error (.mcpError .invalidParams "workspaceId and userId are required")
    else .ok (stopTimeEntry args now)
  else if name = "create_project" then
    if !truthyArg args "workspaceId" then
      .error (.mcpError .invalidParams "workspaceId is required")
    else .ok (createProject args)
  else if name = "get_projects" then
    if !truthyArg args "workspaceId" then
      .error (.mcpError .invalidParams "workspaceId is required")
    else .ok (getProjects args)
  else if name = "get_project" then
    if !truthyArg args "workspaceId" || !truthyArg args "projectId" then
      .error (.mcpError .invalidParams "workspaceId and projectId are required")
    else .ok (getProject (lookupJs args "workspaceId") (lookupJs args "projectId"))
  else if name = "update_project" then
    if !truthyArg args "workspaceId" || !truthyArg args "projectId" then
      .error (.mcpError .invalidParams "workspaceId and projectId are required")
    else .ok (updateProject args)
  else if name = "delete_project" then
    if !truthyArg args "workspaceId" || !truthyArg args "projectId" then
      .error (.mcpError .invalidParams "workspaceId and projectId are required")
    else .ok (deleteProject (lookupJs args "workspaceId") (lookupJs args "projectId"))
  else if name = "create_task" then
    if !truthyArg args "workspaceId" || !truthyArg args "projectId" then
      .error (.mcpError .invalidParams "workspaceId and projectId are required")
    else .ok (createTask args)
  else if name = "get_tasks" then
    if !truthyArg args "workspaceId" || !truthyArg args "projectId" then
      .error (.mcpError .invalidParams "workspaceId and projectId are required")
    else .ok (getTasks args)
  else if name = "get_task" then
    if !truthyArg args "workspaceId" || !truthyArg args "projectId" || !truthyArg args "taskId" then
      .error (.mcpError .invalidParams "workspaceId, projectId and taskId are required")
    else .ok (getTask (lookupJs args "workspaceId") (lookupJs args "projectId") (lookupJs args "taskId"))
  else if name = "update_task" then
    if !truthyArg args "workspaceId" || !truthyArg args "projectId" || !truthyArg args "taskId" then
      .error (.mcpError .invalidParams "workspaceId, projectId and taskId are required")
    else .ok (updateTask args)
  else if name = "delete_task" then
    if !truthyArg args "workspaceId" || !truthyArg args "projectId" || !truthyArg args "taskId" then
      .error (.mcpError .invalidParams "workspaceId, projectId and taskId are required")
    else .ok (deleteTask (lookupJs args "workspaceId") (lookupJs args "projectId") (lookupJs args "taskId"))
  else if name = "create_client" then
    if !truthyArg args "workspaceId" then
      .error (.mcpError .invalidParams "workspaceId is required")
    else .ok (createClient args)
  else if name = "get_clients" then
    if !truthyArg args "workspaceId" then
      .error (.mcpError .invalidParams "workspaceId is required")
    else .ok (getClients args)
  else if name = "update_client" then
    if !truthyArg args "workspaceId" || !truthyArg args "clientId" then
      .error (.mcpError .invalidParams "workspaceId and clientId are required")
    else .ok (updateClient args)
  else if name = "delete_client" then
    if !truthyArg args "workspaceId" || !truthyArg args "clientId" then
      .error (.mcpError .invalidParams "workspaceId and clientId are required")
    else .ok (deleteClient (lookupJs args "workspaceId") (lookupJs args "clientId"))
  else if name = "create_tag" then
    if !truthyArg args "workspaceId" then
      .error (.mcpError .invalidParams "workspaceId is required")
    else .ok (createTag args)
  else if name = "get_tags" then
    if !truthyArg args "workspaceId" then
      .error (.mcpError .invalidParams "workspaceId is required")
    else .ok (getTags args)
  else if name = "update_tag" then
    if !truthyArg args "workspaceId" || !truthyArg args "tagId" then
      .error (.mcpError .invalidParams "workspaceId and tagId are required")
    else .ok (updateTag args)
  else if name = "delete_tag" then
    if !truthyArg args "workspaceId" || !truthyArg args "tagId" then
      .error (.mcpError .invalidParams "workspaceId and tagId are required")
    else .ok (deleteTag (lookupJs args "workspaceId") (lookupJs args "tagId"))
  else if name = "get_detailed_report" then .ok (getDetailedReport args)
  else if name = "get_summary_report" then .ok (getSummaryReport args)
  else .error (.mcpError .methodNotFound ("Unknown tool: " ++ name))

/-- The dispatcher's catch block: a thrown non-`McpError` exception is
wrapped as an internal error; an `McpError` is rethrown unchanged.  (A
`jsonSyntaxError` cannot arise before the network call; its wrapping is
included only for totality.) -/
def buildRequest (now : String) (name : String) (args : Args) :
    Except JsFailure HttpRequest :=
  match buildRequestCore now name args with
  | .ok req => .ok req
  | .error (.mcpError c m) => .error (.mcpError c m)
  | .error (.thrown m) => .error (.mcpError .internalError ("Tool execution failed: " ++ m))
  | .error .jsonSyntaxError => .error (.mcpError .internalError "Tool execution failed: SyntaxError")

/-- The read-by-identifier pipeline for `get_project`: the handler performs
exactly one `makeRequest` call and propagates its failure unchanged. -/
def getProjectResult (config : ClockifyConfig) (workspaceId projectId : JsValue)
    (fetchResult : Except String HttpResponse) : Nat × Except JsFailure JsValue :=
  makeRequest config (getProject workspaceId projectId) fetchResult

/-- Property access on an object value, as an `Option`. -/
def objLookup (v : JsValue) (k : String) : Option JsValue :=
  match v with
  | .obj fields => findVal fields k
  | _ => none

/-- A field of a request's JSON body, if any. -/
def bodyField (req : HttpRequest) (k : String) : Option JsValue :=
  match req.body with
  | some b => objLookup b k
  | none => none

/-! ### Theorems

Helper lemmas first, then one theorem per claim (with a witness or
counterexample where required). -/

theorem findVal_cons (p : String × JsValue) (rest : Args) (k : String) :
    findVal (p :: rest) k = if p.1 = k then some p.2 else findVal rest k := by
  by_cases h : p.1 = k <;> simp [findVal, List.find?, h]

theorem lookupJs_eq_findVal (l : Args) (k : String) :
    lookupJs l k = (findVal l k).getD .undefined := by
  unfold lookupJs findVal
  cases l.find? (fun p => p.1 = k) <;> simp

theorem findVal_of_lookupJs_str (l : Args) (k : String) (s : String)
    (h : lookupJs l k = .str s) : findVal l k = some (.str s) := by
  rw [lookupJs_eq_findVal] at h
  cases hf : findVal l k with
  | none => rw [hf] at h; simp at h
  | some v => rw [hf] at h; simp at h; rw [h]

theorem findVal_updateKey_self (l : Args) (k : String) (v : JsValue) :
    findVal (updateKey l k v) k = some v := by
  induction l with
  | nil => simp [updateKey, findVal, List.find?]
  | cons p ps ih =>
      obtain ⟨k', v'⟩ := p
      by_cases h : k' = k
      · simp [updateKey, h, findVal_cons]
      · simpa [updateKey, h, findVal_cons] using ih

theorem findVal_updateKey_ne (l : Args) (k k' : String) (v : JsValue) (h : k ≠ k') :
    findVal (updateKey l k v) k' = findVal l k' := by
  induction l with
  | nil => simp [updateKey, findVal_cons, findVal, List.find?, h]
  | cons p ps ih =>
      obtain ⟨ka, va⟩ := p
      by_cases hp : ka = k
      · subst hp
        simp [updateKey, findVal_cons, h]
      · simp [updateKey, hp, findVal_cons, ih]

theorem hasT_append (a b : String) : hasT (a ++ b) = (hasT a || hasT b) := by
  simp [hasT, String.data_append, List.any_append]

theorem hasT_toISOString (ms : Nat) : hasT (toISOString ms) = true := by
  unfold toISOString
  simp only [hasT_append]
  have hT : hasT "T" = true := rfl
  rw [hT]
  simp

/-- Unconditionally normalized field (`start` of create): pass-through when
it carries the separator, reserialized on a successful date parse. -/
theorem normalizeAlways_spec (data : Args) (k : String) (s : String) (res : Args)
    (hs : lookupJs data k = .str s) (hres : normalizeAlways data k = .ok res) :
    (hasT s = true → findVal res k = some (.str s))
    ∧ (hasT s = false → ∃ ms, parseDateOnly s = some ms ∧
        findVal res k = some (.str (toISOString ms))) := by
  unfold normalizeAlways at hres
  rw [hs] at hres
  dsimp only at hres
  by_cases hT : hasT s
  · rw [if_pos hT] at hres
    cases hres
    exact ⟨fun _ => findVal_of_lookupJs_str data k s hs, fun h => absurd hT (by simp [h])⟩
  · rw [if_neg hT] at hres
    cases hp : parseDateOnly s with
    | none => rw [hp] at hres; cases hres
    | some ms =>
        rw [hp] at hres
        cases hres
        exact ⟨fun h => absurd h (by simp [hT]),
          fun _ => ⟨ms, rfl, findVal_updateKey_self data k _⟩⟩

/-- The unconditional normalization touches no other key. -/
theorem normalizeAlways_findVal_ne (data : Args) (k k' : String) (res : Args)
    (h : k ≠ k') (hres : normalizeAlways data k = .ok res) :
    findVal res k' = findVal data k' := by
  unfold normalizeAlways at hres
  cases hv : lookupJs data k <;> rw [hv] at hres <;> dsimp only at hres <;> try cases hres
  case str s =>
    by_cases hT : hasT s
    · rw [if_pos hT] at hres; cases hres; rfl
    · rw [if_neg hT] at hres
      cases hp : parseDateOnly s with
      | none => rw [hp] at hres; cases hres
      | some ms => rw [hp] at hres; cases hres; exact findVal_updateKey_ne data k k' _ h

/-- Truthiness-guarded normalized field (`end` of create, `start`/`end` of
update): falsy values (in particular the empty string) pass through
untouched; carrying the separator passes through; otherwise a successful
date parse reserializes. -/
theorem normalizeIfTruthy_spec (data : Args) (k : String) (s : String) (res : Args)
    (hs : lookupJs data k = .str s) (hres : normalizeIfTruthy data k = .ok res) :
    (hasT s = true → findVal res k = some (.str s))
    ∧ (s = "" → findVal res k = some (.str s))
    ∧ (hasT s = false → s ≠ "" → ∃ ms, parseDateOnly s = some ms ∧
        findVal res k = some (.str (toISOString ms))) := by
  unfold normalizeIfTruthy at hres
  dsimp only at hres
  by_cases he : s = ""
  · have ht : ¬ jsTruthy (lookupJs data k) = true := by rw [hs]; simp [jsTruthy, he]
    rw [if_neg ht] at hres
    cases hres
    have hfv := findVal_of_lookupJs_str data k s hs
    exact ⟨fun _ => hfv, fun _ => hfv, fun _ hne => absurd he hne⟩
  · have ht : jsTruthy (lookupJs data k) = true := by rw [hs]; simp [jsTruthy, he]
    rw [if_pos ht, hs] at hres
    dsimp only at hres
    by_cases hT : hasT s
    · rw [if_pos hT] at hres
      cases hres
      exact ⟨fun _ => findVal_of_lookupJs_str data k s hs,
        fun h => absurd h he, fun h _ => absurd hT (by simp [h])⟩
    · rw [if_neg hT] at hres
      cases hp : parseDateOnly s with
      | none => rw [hp] at hres; cases hres
      | some ms =>
          rw [hp] at hres
          cases hres
          exact ⟨fun h => absurd h (by simp [hT]), fun h => absurd h he,
            fun _ _ => ⟨ms, rfl, findVal_updateKey_self data k _⟩⟩

/-- The guarded normalization touches no other key. -/
theorem normalizeIfTruthy_findVal_ne (data : Args) (k k' : String) (res : Args)
    (h : k ≠ k') (hres : normalizeIfTruthy data k = .ok res) :
    findVal res k' = findVal data k' := by
  unfold normalizeIfTruthy at hres
  dsimp only at hres
  by_cases ht : jsTruthy (lookupJs data k) = true
  · rw [if_pos ht] at hres
    cases hv : lookupJs data k <;> rw [hv] at hres <;> dsimp only at hres <;> try cases hres
    rename_i s
    by_cases hT : hasT s
    · rw [if_pos hT] at hres; cases hres; rfl
    · rw [if_neg hT] at hres
      cases hp : parseDateOnly s with
      | none => rw [hp] at hres; cases hres
      | some ms => rw [hp] at hres; cases hres; exact findVal_updateKey_ne data k k' _ h
  · rw [if_neg ht] at hres
    cases hres
    rfl

/-- C7: for every call to the HTTP client primitive with the configured API
key equal to the empty string, the call fails immediately with the
configuration `McpError` (code `InvalidParams`, the not-configured message)
and performs zero fetch attempts; consequently an API-touching operation
such as `get_project` fails the same way with no outbound request. -/
theorem C7_no_api_key_fails_fast (config : ClockifyConfig) (req : HttpRequest)
    (fetchResult : Except String HttpResponse) (h : config.apiKey = "") :
    makeRequest config req fetchResult =
      (0, .error (.mcpError .invalidParams
        "Clockify API key not configured. Set CLOCKIFY_API_KEY environment variable."))
    ∧ ∀ (w p : JsValue) (fr : Except String HttpResponse),
        getProjectResult config w p fr =
          (0, .error (.mcpError .invalidParams
            "Clockify API key not configured. Set CLOCKIFY_API_KEY environment variable.")) := by
  constructor
  · unfold makeRequest
    rw [if_pos h]
  · intro w p fr
    unfold getProjectResult makeRequest
    rw [if_pos h]

/-- Witness for C7 at a concrete empty-key configuration. -/
theorem C7_witness :
    makeRequest { apiKey := "", baseUrl := "https://api.clockify.me/api/v1" }
      getCurrentUser (.ok { status := 200, bodyText := "[]" }) =
      (0, .error (.mcpError .invalidParams
        "Clockify API key not configured. Set CLOCKIFY_API_KEY environment variable.")) :=
  (C7_no_api_key_fails_fast _ _ _ rfl).1

/-- C8: every non-success HTTP status makes the client primitive fail with
the uniform `McpError` shape whose message carries the numeric status code
and the raw body text, and the read-by-identifier handler `get_project`
surfaces exactly that failure. -/
theorem C8_error_carries_status_and_body (config : ClockifyConfig) (req : HttpRequest)
    (resp : HttpResponse) (hkey : ¬ config.apiKey = "")
    (hstatus : ¬ (200 ≤ resp.status ∧ resp.status ≤ 299)) :
    makeRequest config req (.ok resp) =
      (1, .error (.mcpError .internalError
        ("Clockify API error (" ++ toString resp.status ++ "): " ++ resp.bodyText)))
    ∧ ∀ w p : JsValue,
        getProjectResult config w p (.ok resp) =
          (1, .error (.mcpError .internalError
            ("Clockify API error (" ++ toString resp.status ++ "): " ++ resp.bodyText))) := by
  constructor
  · unfold makeRequest
    rw [if_neg hkey]
    dsimp only
    rw [if_neg hstatus]
  · intro w p
    unfold getProjectResult makeRequest
    rw [if_neg hkey]
    dsimp only
    rw [if_neg hstatus]

/-- Witness for C8: a 404 with body text `Not found` surfaces through the
`get_project` pipeline with both pieces in the error message. -/
theorem C8_witness :
    getProjectResult { apiKey := "key", baseUrl := "https://api.clockify.me/api/v1" }
      (.str "w1") (.str "p1") (.ok { status := 404, bodyText := "Not found" }) =
      (1, .error (.mcpError .internalError "Clockify API error (404): Not found")) :=
  (C8_error_carries_status_and_body
    { apiKey := "key", baseUrl := "https://api.clockify.me/api/v1" }
    (getProject (.str "w1") (.str "p1"))
    { status := 404, bodyText := "Not found" }
    (by decide) (by decide)).2 (.str "w1") (.str "p1")

/-- C2 counterexample: a success-status response with an empty body does NOT
yield an empty result — `response.json()` raises a `SyntaxError` (returned
without `await`, so it escapes the helper's catch), i.e. the call fails. -/
theorem C2_counterexample :
    makeRequest { apiKey := "key", baseUrl := "https://api.clockify.me/api/v1" }
      getCurrentUser (.ok { status := 200, bodyText := "" }) =
      (1, .error .jsonSyntaxError) := rfl

/-- C2 (amended): a success-range status yields the parsed JSON body when
the body parses; a body that does not parse as JSON — the empty body in
particular — yields a failure (an escaping JSON syntax error), not an empty
result. -/
theorem C2_success_yields_parsed_body (config : ClockifyConfig) (req : HttpRequest)
    (resp : HttpResponse) (v : JsValue) (hkey : ¬ config.apiKey = "")
    (hok : 200 ≤ resp.status ∧ resp.status ≤ 299) :
    (parseJson resp.bodyText = some v →
      makeRequest config req (.ok resp) = (1, .ok v))
    ∧ (parseJson resp.bodyText = none →
      makeRequest config req (.ok resp) = (1, .error .jsonSyntaxError)) := by
  constructor <;> intro hp <;> unfold makeRequest <;> rw [if_neg hkey] <;>
    dsimp only <;> rw [if_pos hok, hp]

/-- Witness for C2 at a concrete parseable body. -/
theorem C2_witness :
    makeRequest { apiKey := "key", baseUrl := "https://api.clockify.me/api/v1" }
      getCurrentUser (.ok { status := 200, bodyText := "[]" }) = (1, .ok (.arr [])) :=
  (C2_success_yields_parsed_body
    { apiKey := "key", baseUrl := "https://api.clockify.me/api/v1" }
    getCurrentUser { status := 200, bodyText := "[]" } (.arr [])
    (by decide) (by decide)).1 rfl

/-- C1 (code bug evaluation): `get_detailed_report` declares
`workspaceId`, `dateRangeStart` and `dateRangeEnd` as required in its input
schema, yet the dispatcher's case performs no presence check.  Invoking it
with `workspaceId` omitted raises no invalid-parameters error: the
dispatcher builds and issues an outbound POST whose path interpolates the
JS `undefined`. -/
theorem C1_report_validation_gap :
    buildRequest "2024-06-01T00:00:00.000Z" "get_detailed_report"
      [("dateRangeStart", .str "2024-01-01"), ("dateRangeEnd", .str "2024-01-31")] =
    .ok { endpoint := "/workspaces/undefined/reports/detailed", method := .post,
          body := some (.obj
            [("dateRangeStart", .str "2024-01-01"),
             ("dateRangeEnd", .str "2024-01-31"),
             ("detailedFilter", .obj
               [("sortColumn", .str "DATE"), ("sortOrder", .str "DESCENDING"),
                ("page", .num 1), ("pageSize", .num 50),
                ("options", .obj [("totals", .str "CALCULATE")])]),
             ("exportType", .str "JSON")]),
          baseUrl := some "https://reports.api.clockify.me/v1" } := rfl

/-- C9: an operation name matching no catalogue entry makes the dispatcher
fail with the method-not-found error; no handler runs and no request is
built, so no network call occurs. -/
theorem C9_unknown_tool (now name : String) (args : Args) (h : ¬ name ∈ toolNames) :
    buildRequest now name args =
      .error (.mcpError .methodNotFound ("Unknown tool: " ++ name)) := by
  simp only [toolNames, List.mem_cons, List.not_mem_nil, or_false, not_or] at h
  obtain ⟨h1, h2, h3, h4, h5, h6, h7, h8, h9, h10, h11, h12, h13, h14, h15, h16,
    h17, h18, h19, h20, h21, h22, h23, h24, h25, h26, h27, h28⟩ := h
  unfold buildRequest buildRequestCore
  rw [if_neg h1, if_neg h2, if_neg h3, if_neg h4, if_neg h5, if_neg h6, if_neg h7,
    if_neg h8, if_neg h9, if_neg h10, if_neg h11, if_neg h12, if_neg h13, if_neg h14,
    if_neg h15, if_neg h16, if_neg h17, if_neg h18, if_neg h19, if_neg h20, if_neg h21,
    if_neg h22, if_neg h23, if_neg h24, if_neg h25, if_neg h26, if_neg h27, if_neg h28]

/-- Witness for C9 at a concrete unknown name. -/
theorem C9_witness :
    buildRequest "2024-06-01T00:00:00.000Z" "frobnicate" [] =
      .error (.mcpError .methodNotFound "Unknown tool: frobnicate") :=
  C9_unknown_tool "2024-06-01T00:00:00.000Z" "frobnicate" [] (by decide)

theorem searchParamsOf_eq_filterMap (params : Args) :
    searchParamsOf params =
      (params.filter (fun p => isDefined p.2)).map (fun p => (p.1, jsToString p.2)) := by
  have key : ∀ (acc : List (String × String)) (l : Args),
      l.foldl (fun acc p => if isDefined p.2 then acc ++ [(p.1, jsToString p.2)] else acc) acc
        = acc ++ (l.filter (fun p => isDefined p.2)).map (fun p => (p.1, jsToString p.2)) := by
    intro acc l
    induction l generalizing acc with
    | nil => simp
    | cons p ps ih =>
        by_cases hd : isDefined p.2 <;> simp [hd, ih, List.filter_cons]
  simpa using key [] params

theorem searchToString_cons_ne_empty (p : String × String) (rest : List (String × String)) :
    ¬ searchToString (p :: rest) = "" := by
  obtain ⟨k, v⟩ := p
  have heq : ("=" : String).length = 1 := rfl
  cases rest with
  | nil =>
      intro hcontra
      have hlen := congrArg String.length hcontra
      simp only [searchToString, String.length_append] at hlen
      rw [heq] at hlen
      simp at hlen
  | cons q qs =>
      intro hcontra
      have hlen := congrArg String.length hcontra
      simp only [searchToString, String.length_append] at hlen
      rw [heq] at hlen
      simp at hlen

/-- C4: `get_projects` issues a GET with no body against the primary base
URL; `workspaceId` appears only as the path segment, and every remaining
defined (non-null, non-undefined) argument becomes a `&`-joined query pair
`key=String(value)` in the insertion order of the argument bag; on the
concrete bag of the specification the endpoint is
`/workspaces/w1/projects?archived=true&pageSize=10`. -/
theorem C4_get_projects_query (args : Args) :
    (getProjects args).method = .get
    ∧ (getProjects args).body = none
    ∧ (getProjects args).baseUrl = none
    ∧ (getProjects args).endpoint =
        (if ((removeKey args "workspaceId").filter (fun p => isDefined p.2)).isEmpty then
          "/workspaces/" ++ jsToString (lookupJs args "workspaceId") ++ "/projects"
         else
          "/workspaces/" ++ jsToString (lookupJs args "workspaceId") ++ "/projects" ++ "?" ++
            searchToString (((removeKey args "workspaceId").filter (fun p => isDefined p.2)).map
              (fun p => (p.1, jsToString p.2))))
    ∧ (getProjects [("workspaceId", .str "w1"), ("archived", .bool true),
        ("pageSize", .num 10)]).endpoint
        = "/workspaces/w1/projects?archived=true&pageSize=10" := by
  refine ⟨rfl, rfl, rfl, ?_, rfl⟩
  show withQuery ("/workspaces/" ++ jsToString (lookupJs args "workspaceId") ++ "/projects")
      (removeKey args "workspaceId") = _
  unfold withQuery
  rw [searchParamsOf_eq_filterMap]
  cases hl : (removeKey args "workspaceId").filter (fun p => isDefined p.2) with
  | nil => simp [searchToString]
  | cons p ps =>
      rw [List.map_cons, if_neg (searchToString_cons_ne_empty _ _)]
      simp

/-- C5: the detailed-report payload nests the paging and sort fields under
the `detailedFilter` sub-object together with the fixed
`options.totals = CALCULATE`; the outbound page size is the default-then-
clamped `min` value, never exceeding 1000 and equal to 1000 when the caller
supplies 5000; and the request goes to the report-service base URL (for
every configuration, the fetched URL starts with it, not with the
configured primary base). -/
theorem C5_detailed_report_nesting (w : JsValue) (r : DetailedReportArgs) :
    (detailedReportRequest w r).baseUrl = some "https://reports.api.clockify.me/v1"
    ∧ (∀ config : ClockifyConfig,
        makeRequestUrl config (detailedReportRequest w r) =
          "https://reports.api.clockify.me/v1" ++ (detailedReportRequest w r).endpoint)
    ∧ ("detailedFilter", detailedFilterVal r) ∈ detailedReportPayload r
    ∧ objLookup (detailedFilterVal r) "options" = some (.obj [("totals", .str "CALCULATE")])
    ∧ objLookup (detailedFilterVal r) "sortColumn" = some (.str (jsOrStr r.sortColumn "DATE"))
    ∧ objLookup (detailedFilterVal r) "sortOrder" = some (.str (jsOrStr r.sortOrder "DESCENDING"))
    ∧ objLookup (detailedFilterVal r) "page" = some (.num (jsOrNum r.page 1))
    ∧ objLookup (detailedFilterVal r) "pageSize" = some (.num (min (jsOrNum r.pageSize 50) 1000))
    ∧ min (jsOrNum r.pageSize 50) 1000 ≤ 1000
    ∧ (r.pageSize = some 5000 → min (jsOrNum r.pageSize 50) 1000 = 1000) := by
  refine ⟨rfl, fun config => rfl,
    List.mem_filter.mpr ⟨by simp [detailedPayloadRaw], rfl⟩,
    rfl, rfl, rfl, rfl, rfl, min_le_right _ _, ?_⟩
  intro h
  rw [h]
  show min (5000 : Int) 1000 = 1000
  exact min_eq_right (by norm_num)

/-- Witness for C5 at a concrete page size of 5000. -/
theorem C5_witness :
    (detailedReportRequest (.str "w1") { pageSize := some 5000 }).baseUrl
        = some "https://reports.api.clockify.me/v1"
    ∧ objLookup (detailedFilterVal { pageSize := some 5000 }) "pageSize"
        = some (.num 1000) := by
  have h := C5_detailed_report_nesting (.str "w1") { pageSize := some 5000 }
  refine ⟨h.1, ?_⟩
  have h8 := h.2.2.2.2.2.2.2.1
  have h10 := h.2.2.2.2.2.2.2.2.2 rfl
  rw [h8, h10]

/-- C6: a summary-report invocation without `groups` defaults the outbound
`summaryFilter.groups` to the singleton `PROJECT`, and for both report
operations every top-level payload entry surviving the stripping loop is
defined (no key of the outbound body is bound to `undefined`). -/
theorem C6_summary_defaults_and_stripping (r : SummaryReportArgs) (d : DetailedReportArgs) :
    (r.groups = none →
      objLookup (summaryFilterVal r) "groups" = some (.arr [.str "PROJECT"]))
    ∧ (∀ k v, (k, v) ∈ summaryReportPayload r → isUndefined v = false)
    ∧ (∀ k v, (k, v) ∈ detailedReportPayload d → isUndefined v = false) := by
  refine ⟨fun h => by simp [summaryFilterVal, jsOrList, h, objLookup, findVal, List.find?],
    ?_, ?_⟩ <;>
  · intro k v hm
    have hf := (List.mem_filter.mp hm).2
    simpa using hf

/-- Witness for C6: a summary invocation with only the date range set. -/
theorem C6_witness :
    objLookup (summaryFilterVal
        { dateRangeStart := some "2024-01-01", dateRangeEnd := some "2024-01-31" }) "groups"
      = some (.arr [.str "PROJECT"])
    ∧ isUndefined (JsValue.str "2024-01-01") = false := by
  have h := C6_summary_defaults_and_stripping
    { dateRangeStart := some "2024-01-01", dateRangeEnd := some "2024-01-31" } {}
  refine ⟨h.1 rfl, h.2.1 "dateRangeStart" (.str "2024-01-01") ?_⟩
  simp [summaryReportPayload, summaryPayloadRaw, stripUndefined, optStr, optBool,
    optIds, optStrArr, isUndefined]

/-- C10: every defaulted scalar argument of the report and stop handlers
treats a falsy provided value (0 for numbers, the empty string for strings)
exactly as an omitted one — the built request is equal — and the resulting
defaults are 50 for `detailedFilter.pageSize`, 1 for `detailedFilter.page`,
`DURATION` for the summary sort column, and the current instant for the
`end` of `stop_time_entry`. -/
theorem C10_falsy_equals_omitted (w : JsValue) (d : DetailedReportArgs)
    (s : SummaryReportArgs) (wv uv : JsValue) (now : String) :
    detailedReportRequest w { d with pageSize := some 0 }
      = detailedReportRequest w { d with pageSize := none }
    ∧ detailedReportRequest w { d with page := some 0 }
      = detailedReportRequest w { d with page := none }
    ∧ detailedReportRequest w { d with sortColumn := some "" }
      = detailedReportRequest w { d with sortColumn := none }
    ∧ detailedReportRequest w { d with sortOrder := some "" }
      = detailedReportRequest w { d with sortOrder := none }
    ∧ detailedReportRequest w { d with exportType := some "" }
      = detailedReportRequest w { d with exportType := none }
    ∧ summaryReportRequest w { s with sortColumn := some "" }
      = summaryReportRequest w { s with sortColumn := none }
    ∧ summaryReportRequest w { s with sortOrder := some "" }
      = summaryReportRequest w { s with sortOrder := none }
    ∧ summaryReportRequest w { s with exportType := some "" }
      = summaryReportRequest w { s with exportType := none }
    ∧ objLookup (detailedFilterVal { d with pageSize := some 0 }) "pageSize" = some (.num 50)
    ∧ objLookup (detailedFilterVal { d with page := some 0 }) "page" = some (.num 1)
    ∧ objLookup (summaryFilterVal { s with sortColumn := some "" }) "sortColumn"
        = some (.str "DURATION")
    ∧ stopTimeEntry [("workspaceId", wv), ("userId", uv), ("end", .str "")] now
        = stopTimeEntry [("workspaceId", wv), ("userId", uv)] now
    ∧ (stopTimeEntry [("workspaceId", wv), ("userId", uv), ("end", .str "")] now).body
        = some (.obj [("end", .str now)]) :=
  ⟨rfl, rfl, rfl, rfl, rfl, rfl, rfl, rfl, rfl, rfl, rfl, rfl, rfl⟩

/-- C3 counterexample: `update_time_entry` guards its normalization by
truthiness, so an empty-string `start` — which does not contain the
separator `"T"` — is passed through to the outbound body unchanged instead
of being reparsed and reserialized to an ISO-8601 instant. -/
theorem C3_counterexample :
    updateTimeEntry [("workspaceId", .str "w1"), ("timeEntryId", .str "t1"),
        ("start", .str "")] =
      .ok { endpoint := "/workspaces/w1/time-entries/t1", method := .put,
            body := some (.obj [("start", .str "")]), baseUrl := none }
    ∧ hasT "" = false :=
  ⟨rfl, rfl⟩

/-- C3 (amended): whenever `create_time_entry` produces an outbound body, a
string `start` containing `"T"` is carried in it unchanged and a string
`start` without `"T"` that is reparsed as a date is carried reserialized to
a full ISO-8601 instant (which contains the separator); the
truthiness-guarded fields — `end` on create and `start` and `end` on
update — behave the same except that a falsy empty string is carried in the
outbound body unchanged rather than reparsed. -/
theorem C3_date_normalization (args : Args) (s : String) (req : HttpRequest) (ms : Nat) :
    (createTimeEntry args = .ok req →
      ((lookupJs (removeKey args "workspaceId") "start" = .str s →
          (hasT s = true → bodyField req "start" = some (.str s))
          ∧ (hasT s = false → parseDateOnly s = some ms →
              bodyField req "start" = some (.str (toISOString ms))
              ∧ hasT (toISOString ms) = true))
       ∧ (lookupJs (removeKey args "workspaceId") "end" = .str s →
          (hasT s = true → bodyField req "end" = some (.str s))
          ∧ (s = "" → bodyField req "end" = some (.str s))
          ∧ (hasT s = false → s ≠ "" → parseDateOnly s = some ms →
              bodyField req "end" = some (.str (toISOString ms))
              ∧ hasT (toISOString ms) = true))))
    ∧ (updateTimeEntry args = .ok req →
      ((lookupJs (removeKeys args ["workspaceId", "timeEntryId"]) "start" = .str s →
          (hasT s = true → bodyField req "start" = some (.str s))
          ∧ (s = "" → bodyField req "start" = some (.str s))
          ∧ (hasT s = false → s ≠ "" → parseDateOnly s = some ms →
              bodyField req "start" = some (.str (toISOString ms))
              ∧ hasT (toISOString ms) = true))
       ∧ (lookupJs (removeKeys args ["workspaceId", "timeEntryId"]) "end" = .str s →
          (hasT s = true → bodyField req "end" = some (.str s))
          ∧ (s = "" → bodyField req "end" = some (.str s))
          ∧ (hasT s = false → s ≠ "" → parseDateOnly s = some ms →
              bodyField req "end" = some (.str (toISOString ms))
              ∧ hasT (toISOString ms) = true)))) := by
  constructor
  · intro hc
    unfold createTimeEntry at hc
    dsimp only at hc
    cases h1 : normalizeAlways (removeKey args "workspaceId") "start" with
    | error e => rw [h1] at hc; cases hc
    | ok data₁ =>
        rw [h1] at hc
        dsimp only at hc
        cases h2 : normalizeIfTruthy data₁ "end" with
        | error e => rw [h2] at hc; cases hc
        | ok data₂ =>
            rw [h2] at hc
            dsimp only at hc
            cases hc
            constructor
            · intro hs
              have hspec := normalizeAlways_spec _ "start" s data₁ hs h1
              have hpres : findVal data₂ "start" = findVal data₁ "start" :=
                normalizeIfTruthy_findVal_ne data₁ "end" "start" data₂ (by decide) h2
              constructor
              · intro hT
                show findVal data₂ "start" = some (.str s)
                rw [hpres]
                exact hspec.1 hT
              · intro hT hp
                obtain ⟨ms', hp', hf⟩ := hspec.2 hT
                rw [hp'] at hp
                injection hp with hms
                subst hms
                refine ⟨?_, hasT_toISOString ms'⟩
                show findVal data₂ "start" = some (.str (toISOString ms'))
                rw [hpres]
                exact hf
            · intro hs
              have hpres0 : findVal data₁ "end" = findVal (removeKey args "workspaceId") "end" :=
                normalizeAlways_findVal_ne _ "start" "end" data₁ (by decide) h1
              have hs₁ : lookupJs data₁ "end" = .str s := by
                rw [lookupJs_eq_findVal, hpres0, ← lookupJs_eq_findVal]
                exact hs
              have hspec := normalizeIfTruthy_spec data₁ "end" s data₂ hs₁ h2
              refine ⟨fun hT => hspec.1 hT, fun he => hspec.2.1 he, fun hT hne hp => ?_⟩
              obtain ⟨ms', hp', hf⟩ := hspec.2.2 hT hne
              rw [hp'] at hp
              injection hp with hms
              subst hms
              exact ⟨hf, hasT_toISOString ms'⟩
  · intro hc
    unfold updateTimeEntry at hc
    dsimp only at hc
    cases h1 : normalizeIfTruthy (removeKeys args ["workspaceId", "timeEntryId"]) "start" with
    | error e => rw [h1] at hc; cases hc
    | ok data₁ =>
        rw [h1] at hc
        dsimp only at hc
        cases h2 : normalizeIfTruthy data₁ "end" with
        | error e => rw [h2] at hc; cases hc
        | ok data₂ =>
            rw [h2] at hc
            dsimp only at hc
            cases hc
            constructor
            · intro hs
              have hspec := normalizeIfTruthy_spec _ "start" s data₁ hs h1
              have hpres : findVal data₂ "start" = findVal data₁ "start" :=
                normalizeIfTruthy_findVal_ne data₁ "end" "start" data₂ (by decide) h2
              refine ⟨fun hT => ?_, fun he => ?_, fun hT hne hp => ?_⟩
              · show findVal data₂ "start" = some (.str s)
                rw [hpres]
                exact hspec.1 hT
              · show findVal data₂ "start" = some (.str s)
                rw [hpres]
                exact hspec.2.1 he
              · obtain ⟨ms', hp', hf⟩ := hspec.2.2 hT hne
                rw [hp'] at hp
                injection hp with hms
                subst hms
                refine ⟨?_, hasT_toISOString ms'⟩
                show findVal data₂ "start" = some (.str (toISOString ms'))
                rw [hpres]
                exact hf
            · intro hs
              have hpres0 : findVal data₁ "end"
                  = findVal (removeKeys args ["workspaceId", "timeEntryId"]) "end" :=
                normalizeIfTruthy_findVal_ne _ "start" "end" data₁ (by decide) h1
              have hs₁ : lookupJs data₁ "end" = .str s := by
                rw [lookupJs_eq_findVal, hpres0, ← lookupJs_eq_findVal]
                exact hs
              have hspec := normalizeIfTruthy_spec data₁ "end" s data₂ hs₁ h2
              refine ⟨fun hT => hspec.1 hT, fun he => hspec.2.1 he, fun hT hne hp => ?_⟩
              obtain ⟨ms', hp', hf⟩ := hspec.2.2 hT hne
              rw [hp'] at hp
              injection hp with hms
              subst hms
              exact ⟨hf, hasT_toISOString ms'⟩

/-- Witness for C3: creating an entry with the date-only start
`2024-01-15` produces a body whose start is the full instant
`2024-01-15T00:00:00.000Z`, and a start already containing the separator is
passed through; an empty-string update start is passed through unchanged. -/
theorem C3_witness :
    hasT "2024-01-15" = false
    ∧ bodyField { endpoint := "/workspaces/w1/time-entries", method := .post,
                  body := some (.obj [("start", .str "2024-01-15T00:00:00.000Z")]),
                  baseUrl := none } "start"
      = some (.str "2024-01-15T00:00:00.000Z")
    ∧ bodyField { endpoint := "/workspaces/w1/time-entries", method := .post,
                  body := some (.obj [("start", .str "2024-01-15T09:00:00Z")]),
                  baseUrl := none } "start"
      = some (.str "2024-01-15T09:00:00Z")
    ∧ bodyField { endpoint := "/workspaces/w1/time-entries/t1", method := .put,
                  body := some (.obj [("start", .str "")]), baseUrl := none } "start"
      = some (.str "") := by
  have hcreate := (C3_date_normalization
    [("workspaceId", .str "w1"), ("start", .str "2024-01-15")] "2024-01-15"
    { endpoint := "/workspaces/w1/time-entries", method := .post,
      body := some (.obj [("start", .str "2024-01-15T00:00:00.000Z")]),
      baseUrl := none } 1705276800000).1 rfl
  have hpass := (C3_date_normalization
    [("workspaceId", .str "w1"), ("start", .str "2024-01-15T09:00:00Z")]
    "2024-01-15T09:00:00Z"
    { endpoint := "/workspaces/w1/time-entries", method := .post,
      body := some (.obj [("start", .str "2024-01-15T09:00:00Z")]),
      baseUrl := none } 0).1 rfl
  have hupd := (C3_date_normalization
    [("workspaceId", .str "w1"), ("timeEntryId", .str "t1"), ("start", .str "")] ""
    { endpoint := "/workspaces/w1/time-entries/t1", method := .put,
      body := some (.obj [("start", .str "")]), baseUrl := none } 0).2 rfl
  exact ⟨rfl, ((hcreate.1 rfl).2 rfl rfl).1, (hpass.1 rfl).1 rfl, (hupd.1 rfl).2.1 rfl⟩

end Clockify
